import Mathlib

/-!
Verification of traefik-plugin-cache-by-route (cache.go).

The middleware caches HTTP responses keyed by method + host + path.  We give a
shallow embedding of the code in cache.go: the configuration, the constructor
New, the cacheability policy, the cache key, the response-capture wrapper and
the request orchestration ServeHTTP.  External collaborators (the cachecontrol
library, regex matching, the file-backed store that lives in a repository file
not shipped here) are modelled as oracles or, where marked, from the spec.

Durations and instants are modelled as Int nanoseconds, mirroring Go
time.Duration / time.Time arithmetic; the factor nsPerSec is time.Second.
-/

namespace CacheByRoute

def nsPerSec : Int := 1000000000

/-! ## Base64 (Go encoding/base64 standard alphabet, used by encoding/json for
byte slices).  Bytes are Nat values < 256. -/

def b64Alphabet : List Char :=
  ['A', 'B', 'C', 'D', 'E', 'F', 'G', 'H', 'I', 'J', 'K', 'L', 'M',
   'N', 'O', 'P', 'Q', 'R', 'S', 'T', 'U', 'V', 'W', 'X', 'Y', 'Z',
   'a', 'b', 'c', 'd', 'e', 'f', 'g', 'h', 'i', 'j', 'k', 'l', 'm',
   'n', 'o', 'p', 'q', 'r', 's', 't', 'u', 'v', 'w', 'x', 'y', 'z',
   '0', '1', '2', '3', '4', '5', '6', '7', '8', '9', '+', '/']

def b64Char (n : Nat) : Char := b64Alphabet.getD n 'A'

def b64IndexAux : List Char → Nat → Char → Option Nat
  | [], _, _ => none
  | a :: as, i, c => if a = c then some i else b64IndexAux as (i + 1) c

def b64Index (c : Char) : Option Nat := b64IndexAux b64Alphabet 0 c

/-- Encode a byte list in base64: groups of three bytes become four sextet
characters; a final group of one or two bytes is padded with the pad
character. -/
def b64Encode : List Nat → List Char
  | [] => []
  | [a] => [b64Char (a / 4), b64Char (a % 4 * 16), '=', '=']
  | [a, b] => [b64Char (a / 4), b64Char (a % 4 * 16 + b / 16), b64Char (b % 16 * 4), '=']
  | a :: b :: c :: rest =>
      b64Char (a / 4) :: b64Char (a % 4 * 16 + b / 16) ::
        b64Char (b % 16 * 4 + c / 64) :: b64Char (c % 64) :: b64Encode rest

/-- Decode base64: reads four characters at a time, handling the two padded
final-group shapes. -/
def b64Decode : List Char → Option (List Nat)
  | [] => some []
  | w :: x :: y :: z :: rest =>
      match b64Index w, b64Index x with
      | some s1, some s2 =>
          if y = '=' then
            if z = '=' ∧ rest = [] then some [s1 * 4 + s2 / 16] else none
          else
            match b64Index y with
            | some s3 =>
                if z = '=' then
                  if rest = [] then some [s1 * 4 + s2 / 16, s2 % 16 * 16 + s3 / 4] else none
                else
                  match b64Index z with
                  | some s4 =>
                      match b64Decode rest with
                      | some bs =>
                          some ((s1 * 4 + s2 / 16) :: (s2 % 16 * 16 + s3 / 4) ::
                            (s3 % 4 * 64 + s4) :: bs)
                      | none => none
                  | none => none
            | none => none
      | _, _ => none
  | _ => none

/-! ## JSON values and the serialized cache entry.

The Go code serializes the struct cacheData with encoding/json.  We model the
produced document as a JSON syntax tree: an object with the four fields in
struct order, header values as arrays of strings (order and multiplicity
preserved), the body as the base64 string encoding/json produces for a byte
slice, and the expiry instant abstracted as its numeric value in nanoseconds
(Go renders it as an RFC 3339 text carrying the same instant). -/

inductive Json where
  | num (n : Int)
  | str (s : String)
  | arr (elems : List Json)
  | obj (fields : List (String × Json))

/-- The cacheData struct of cache.go: expiry instant, status code, header
multimap and body bytes. -/
structure cacheData where
  expiresAt : Int
  status : Int
  headers : List (String × List String)
  body : List Nat
deriving DecidableEq

def encodeCacheData (d : cacheData) : Json :=
  .obj [("ExpiresAt", .num d.expiresAt),
        ("Status", .num d.status),
        ("Headers", .obj (d.headers.map fun kv => (kv.1, .arr (kv.2.map .str)))),
        ("Body", .str ⟨b64Encode d.body⟩)]

def decodeHeaderVals : List Json → Option (List String)
  | [] => some []
  | .str s :: rest => (decodeHeaderVals rest).map (s :: ·)
  | _ => none

def decodeHeaders : List (String × Json) → Option (List (String × List String))
  | [] => some []
  | (k, .arr vs) :: rest => do
      let vals ← decodeHeaderVals vs
      let hs ← decodeHeaders rest
      some ((k, vals) :: hs)
  | _ => none

/-- Decoder for the document shape produced by encodeCacheData (Go's
json.Unmarshal recovers exactly these fields into a fresh cacheData). -/
def decodeCacheData : Json → Option cacheData
  | .obj [("ExpiresAt", .num e), ("Status", .num s), ("Headers", .obj hs), ("Body", .str bo)] => do
      let headers ← decodeHeaders hs
      let body ← b64Decode bo.data
      some { expiresAt := e, status := s, headers := headers, body := body }
  | _ => none

/-! ## Configuration and constructor (cache.go lines 17-94). -/

/-- A Uri entry of the configuration: a regex pattern and its override TTL in
seconds. -/
structure Uri where
  pattern : String
  ttl : Int
deriving DecidableEq

/-- The Config struct of cache.go.  The integer fields are Go ints carrying
seconds. -/
structure Config where
  path : String
  maxExpiry : Int
  cleanup : Int
  addStatusHeader : Bool
  allowedHTTPMethods : List String
  skipCacheControlHeader : Bool
  defaultTTL : Int
  uris : List Uri
deriving DecidableEq

/-- CreateConfig of cache.go: the default configuration. -/
def CreateConfig : Config :=
  { path := "", maxExpiry := 300, cleanup := 300, addStatusHeader := true,
    allowedHTTPMethods := ["GET", "HEAD"], skipCacheControlHeader := false,
    defaultTTL := 0, uris := [] }

def cacheHeader : String := "Cache-Status"
def cacheHitStatus : String := "hit"
def cacheMissStatus : String := "miss"
def cacheErrorStatus : String := "error"

/-- The cache struct of cache.go (the middleware instance).  The Go field
uriMap is a Go map keyed by compiled regex; its iteration order is
unspecified, modelled here as a list of (pattern, ttl) pairs in one fixed
order. -/
structure cache where
  name : String
  cfg : Config
  uriMap : List (String × Int)

/-- New of cache.go.  patternOk is the regexp.Compile success oracle (regex
compilation is outside the repository); fileCacheOk stands for newFileCache
succeeding on the storage location. -/
def New (cfg : Config) (patternOk : String → Bool) (fileCacheOk : Bool)
    (name : String) : Except String cache :=
  if cfg.maxExpiry ≤ 1 then .error ("maxExpiry must be greater or equal to 1")
  else if cfg.cleanup ≤ 1 then .error ("cleanup must be greater or equal to 1")
  else if !fileCacheOk then .error ("newFileCache failed")
  else .ok { name := name, cfg := cfg,
             uriMap := (cfg.uris.filter fun u => patternOk u.pattern).map
               fun u => (u.pattern, u.ttl) }

/-! ## Requests, the cache key and the URL string. -/

/-- The request attributes the middleware reads: method, Host, URL path and
raw query. -/
structure Request where
  method : String
  host : String
  path : String
  rawQuery : String
deriving DecidableEq

/-- Go r.URL.String() for a server-side request URL: the path followed by
? and the raw query when the query is nonempty. -/
def urlString (r : Request) : String :=
  r.path ++ (if r.rawQuery = "" then "" else "?" ++ r.rawQuery)

/-- cacheKey of cache.go: plain concatenation r.Method + r.Host + r.URL.Path. -/
def cacheKey (r : Request) : String := r.method ++ r.host ++ r.path

/-! ## The cacheability policy (cacheable, cache.go lines 162-207). -/

/-- Outcome of the external cachecontrol.CachableResponseWriter call (the
pquerna/cachecontrol library, outside this repository): the list of
no-cache reasons, the computed expiry instant and whether the call errored.
Supplied as an oracle input. -/
structure CCResult where
  reasons : List String
  expireBy : Int
  err : Bool

/-- First match in the uriMap list: Go ranges over the map and returns on the
first pattern whose MatchString accepts the URL string.  matchFn is the
regex-match oracle (pattern, input). -/
def firstMatch (matchFn : String → String → Bool) :
    List (String × Int) → String → Option Int
  | [], _ => none
  | (p, t) :: rest, s => if matchFn p s then some t else firstMatch matchFn rest s

/-- Literal substring search on char lists: leadMatch tests whether pat is an
initial segment of s. -/
def leadMatch : List Char → List Char → Bool
  | [], _ => true
  | _ :: _, [] => false
  | a :: as, b :: bs => a = b && leadMatch as bs

def hasSub (pat : List Char) : List Char → Bool
  | [] => leadMatch pat []
  | c :: cs => leadMatch pat (c :: cs) || hasSub pat cs

/-- A concrete regex-match oracle for metacharacter-free patterns: Go
regexp.MatchString with a literal pattern is unanchored substring search. -/
def containsStr (pat s : String) : Bool := hasSub pat.data s.data

/-- A regex-match oracle that matches nothing. -/
def noMatch : String → String → Bool := fun _ _ => false

/-- cacheable of cache.go.  Returns the expiry duration (ns) and whether the
response may be cached.  status is the captured status the middleware passes
in; in standard mode it is consumed by the cachecontrol call whose outcome is
the oracle cc.  now is time.Now() in ns.  The inner re-check of
SkipCacheControlHeader reproduces the dead branch at lines 169-171. -/
def cacheable (matchFn : String → String → Bool) (m : cache) (r : Request)
    (status : Int) (cc : CCResult) (now : Int) : Int × Bool :=
  if !m.cfg.skipCacheControlHeader then
    if cc.err || !cc.reasons.isEmpty then (0, false)
    else
      let expireBy := if m.cfg.skipCacheControlHeader
        then now + m.cfg.defaultTTL * nsPerSec else cc.expireBy
      let expiry := expireBy - now
      let maxExpiry := m.cfg.maxExpiry * nsPerSec
      ((if maxExpiry < expiry then maxExpiry else expiry), true)
  else
    match firstMatch matchFn m.uriMap (urlString r) with
    | some ttl =>
        let expiry := ttl * nsPerSec
        let maxExpiry := m.cfg.maxExpiry * nsPerSec
        ((if maxExpiry < expiry then maxExpiry else expiry), true)
    | none =>
        if m.cfg.defaultTTL > 0 then
          let expiry := m.cfg.defaultTTL * nsPerSec
          let maxExpiry := m.cfg.maxExpiry * nsPerSec
          ((if maxExpiry < expiry then maxExpiry else expiry), true)
        else (0, false)

/-! ## Serialization to storage bytes and the store. -/

/-- A stored byte blob: some j is a well-formed JSON document, none stands
for bytes that are not a valid encoding (including the nil slice written when
marshalling fails). -/
def Blob : Type := Option Json

/-- Earliest instant Go's time.Time accepts when marshalling to JSON
(year 0). -/
def marshalTimeMin : Int := -62167219200 * nsPerSec

/-- First instant past the marshallable range (year 10000). -/
def marshalTimeMax : Int := 253402300800 * nsPerSec

/-- json.Marshal of a cacheData value.  Modelled on Go encoding/json:
marshalling fails exactly when the expiry instant's year falls outside
[0, 9999] (time.Time.MarshalJSON's range check); on failure the produced byte
slice is nil, modelled as none. -/
def marshal (d : cacheData) : Blob :=
  if d.expiresAt < marshalTimeMin ∨ marshalTimeMax ≤ d.expiresAt then none
  else some (encodeCacheData d)

/-- Modelled from the spec: the file-backed Store (newFileCache / Get / Set
in the repository's store file, which is not under src/).  Set(key, bytes,
ttl) writes or overwrites the entry for key, recording the bytes and the ttl
that was passed; Get returns the bytes of the entry for key when one exists.
Expiry enforcement and the background sweep are not needed by the claims
settled against this model. -/
structure Store where
  entries : List (String × Blob × Int)

def Store.get (s : Store) (k : String) : Option Blob :=
  (s.entries.find? fun e => e.1 == k).map fun e => e.2.1

def Store.ttlOf (s : Store) (k : String) : Option Int :=
  (s.entries.find? fun e => e.1 == k).map fun e => e.2.2

def Store.set (s : Store) (k : String) (b : Blob) (ttl : Int) : Store :=
  ⟨(k, b, ttl) :: s.entries.filter fun e => e.1 != k⟩

def emptyStore : Store := ⟨[]⟩

/-! ## Response capture (responseWriter, cache.go lines 213-231) and the
request orchestration (ServeHTTP, cache.go lines 104-160). -/

/-- What the upstream handler did to the wrapped writer: whether WriteHeader
was called and with what code, the final contents of w.Header() when the
handler returned, and the concatenation of all Write payloads. -/
structure UpstreamResult where
  wroteHeader : Bool
  status : Int
  headers : List (String × List String)
  body : List Nat

/-- The status recorded by the responseWriter wrapper: its status field is
only assigned in WriteHeader, so it keeps the Go zero value 0 when the
handler never calls WriteHeader. -/
def capturedStatus (u : UpstreamResult) : Int :=
  if u.wroteHeader then u.status else 0

/-- The status the client sees on the wire: net/http itself defaults to 200
when the handler writes the body without calling WriteHeader. -/
def clientStatusOf (u : UpstreamResult) : Int :=
  if u.wroteHeader then u.status else 200

/-- Observable outcome of one ServeHTTP call. -/
structure ServeResult where
  servedFromCache : Bool
  upstreamInvoked : Bool
  clientStatus : Int
  clientBody : List Nat
  cacheStatus : Option String
  store : Store

/-- The pass-through half of ServeHTTP (cache.go lines 133-159): set the
diagnostic header to cs, run the upstream handler through the capture
wrapper, consult cacheable, and on a cacheable outcome marshal a cacheData
snapshot and write it to the store; a marshal failure is logged and the Set
call still happens with the marshaller's output. -/
def passThrough (matchFn : String → String → Bool) (m : cache) (cs : String)
    (store : Store) (r : Request) (cc : CCResult) (now : Int)
    (u : UpstreamResult) : ServeResult :=
  let status := capturedStatus u
  let res := cacheable matchFn m r status cc now
  let base : ServeResult :=
    { servedFromCache := false, upstreamInvoked := true,
      clientStatus := clientStatusOf u, clientBody := u.body,
      cacheStatus := if m.cfg.addStatusHeader then some cs else none,
      store := store }
  if res.2 then
    let data : cacheData :=
      { expiresAt := now + res.1, status := status,
        headers := u.headers, body := u.body }
    { base with store := store.set (cacheKey r) (marshal data) res.1 }
  else base

/-- ServeHTTP of cache.go.  A Get hit whose bytes unmarshal replays the
stored status and body; an unmarshal failure falls through with the
diagnostic header set to error; a Get miss falls through with it set to
miss. -/
def serveHTTP (matchFn : String → String → Bool) (m : cache) (store : Store)
    (r : Request) (cc : CCResult) (now : Int) (u : UpstreamResult) : ServeResult :=
  match store.get (cacheKey r) with
  | some b =>
      match b.bind decodeCacheData with
      | some data =>
          { servedFromCache := true, upstreamInvoked := false,
            clientStatus := data.status, clientBody := data.body,
            cacheStatus := if m.cfg.addStatusHeader then some cacheHitStatus else none,
            store := store }
      | none => passThrough matchFn m cacheErrorStatus store r cc now u
  | none => passThrough matchFn m cacheMissStatus store r cc now u

/-- Spec-side candidate expiry, written from the spec's words: the freshness
lifetime from now in standard mode, the matched rule's TTL or else the
default TTL in override mode. -/
def candidateExpiry (matchFn : String → String → Bool) (m : cache)
    (r : Request) (cc : CCResult) (now : Int) : Int :=
  if !m.cfg.skipCacheControlHeader then cc.expireBy - now
  else
    match firstMatch matchFn m.uriMap (urlString r) with
    | some ttl => ttl * nsPerSec
    | none => m.cfg.defaultTTL * nsPerSec

/-! ## Concrete values used by witnesses and counterexamples. -/

/-- A standard-mode middleware instance with the default configuration. -/
def mStd : cache := { name := "t", cfg := { CreateConfig with path := "/tmp" }, uriMap := [] }

/-- The override-mode configuration shared by the concrete instances below:
standard cache-control interpretation disabled, otherwise the defaults. -/
def cfgOverride : Config :=
  { CreateConfig with
      path := "/tmp"
      skipCacheControlHeader := true }

/-- An override-mode instance with default TTL 7 and no rules. -/
def mOvDefault : cache :=
  { name := "t5", cfg := { cfgOverride with defaultTTL := 7 }, uriMap := [] }

/-- An override-mode instance with default TTL 30 and no rules. -/
def mOvDef30 : cache :=
  { name := "t6", cfg := { cfgOverride with defaultTTL := 30 }, uriMap := [] }

/-- An override-mode instance with one rule on the pattern x=1 and default
TTL 0. -/
def mQ : cache :=
  { name := "t7", cfg := { cfgOverride with uris := [{ pattern := "x=1", ttl := 30 }] },
    uriMap := [("x=1", 30)] }

/-- An override-mode instance with one rule on the pattern /api and default
TTL 0; the allow-list is the default GET, HEAD. -/
def mOvPost : cache :=
  { name := "t2", cfg := { cfgOverride with uris := [{ pattern := "/api", ttl := 30 }] },
    uriMap := [("/api", 30)] }

def rEx : Request := { method := "GET", host := "example.com", path := "/a", rawQuery := "" }

def rPost : Request := { method := "POST", host := "h", path := "/api/x", rawQuery := "" }

def rQ1 : Request := { method := "GET", host := "h", path := "/a", rawQuery := "x=1" }

def rQ1b : Request := { method := "POST", host := "k", path := "/a", rawQuery := "x=1" }

def rQ2 : Request := { method := "GET", host := "h", path := "/a", rawQuery := "" }

def rK1 : Request := { method := "GET", host := "ab", path := "/p", rawQuery := "" }

def rK2 : Request := { method := "GETa", host := "b", path := "/p", rawQuery := "" }

/-- A cachecontrol outcome with no reasons and an expiry instant of 0. -/
def ccPast : CCResult := { reasons := [], expireBy := 0, err := false }

def uEx : UpstreamResult := { wroteHeader := true, status := 200, headers := [], body := [] }

def uPost : UpstreamResult :=
  { wroteHeader := true, status := 200, headers := [], body := [104, 105] }

/-- An upstream handler that writes body bytes without ever calling
WriteHeader. -/
def uNoWH : UpstreamResult :=
  { wroteHeader := false, status := 0, headers := [], body := [104, 105] }

/-- A cache entry used for the key-collision scenario. -/
def dK : cacheData :=
  { expiresAt := 10 * nsPerSec, status := 200, headers := [], body := [1] }

/-- A concrete cache entry for the round-trip witness. -/
def dW : cacheData :=
  { expiresAt := 1700000000 * nsPerSec
    status := 200
    headers := [("Content-Type", ["text/plain"])]
    body := [104, 105] }

/-- The entry ServeHTTP stores for the handler that never calls WriteHeader:
status 0. -/
def dZero : cacheData :=
  { expiresAt := 30 * nsPerSec, status := 0, headers := [], body := [104, 105] }

/-! ## Helper lemmas. -/

theorem clampEq (e M : Int) : (if M < e then M else e) = min e M := by
  rcases le_or_lt e M with h | h
  · rw [if_neg (not_lt.mpr h), min_eq_left h]
  · rw [if_pos h, min_eq_right h.le]

theorem passThrough_fields (f : String → String → Bool) (m : cache) (cs : String)
    (store : Store) (r : Request) (cc : CCResult) (now : Int) (u : UpstreamResult) :
    (passThrough f m cs store r cc now u).upstreamInvoked = true ∧
    (passThrough f m cs store r cc now u).servedFromCache = false ∧
    (passThrough f m cs store r cc now u).clientStatus = clientStatusOf u ∧
    (passThrough f m cs store r cc now u).clientBody = u.body := by
  unfold passThrough
  by_cases h : (cacheable f m r (capturedStatus u) cc now).2 <;> simp [h]

theorem passThrough_store (f : String → String → Bool) (m : cache) (cs : String)
    (store : Store) (r : Request) (cc : CCResult) (now : Int) (u : UpstreamResult)
    (hok : (cacheable f m r (capturedStatus u) cc now).2 = true) :
    (passThrough f m cs store r cc now u).store =
      store.set (cacheKey r)
        (marshal { expiresAt := now + (cacheable f m r (capturedStatus u) cc now).1,
                   status := capturedStatus u, headers := u.headers, body := u.body })
        (cacheable f m r (capturedStatus u) cc now).1 := by
  unfold passThrough
  simp [hok]

theorem b64Index_b64Char : ∀ n < 64, b64Index (b64Char n) = some n := by decide

theorem b64Char_ne_pad : ∀ n < 64, b64Char n ≠ '=' := by decide

theorem b64_roundtrip : ∀ bs : List Nat, (∀ b ∈ bs, b < 256) →
    b64Decode (b64Encode bs) = some bs
  | [], _ => by simp [b64Encode, b64Decode]
  | [a], h => by
      have ha : a < 256 := h a (by simp)
      have h1 : b64Index (b64Char (a / 4)) = some (a / 4) :=
        b64Index_b64Char _ (by omega)
      have h2 : b64Index (b64Char (a % 4 * 16)) = some (a % 4 * 16) :=
        b64Index_b64Char _ (by omega)
      simp [b64Encode, b64Decode, h1, h2]
      omega
  | [a, b], h => by
      have ha : a < 256 := h a (by simp)
      have hb : b < 256 := h b (by simp)
      have h1 : b64Index (b64Char (a / 4)) = some (a / 4) :=
        b64Index_b64Char _ (by omega)
      have h2 : b64Index (b64Char (a % 4 * 16 + b / 16)) = some (a % 4 * 16 + b / 16) :=
        b64Index_b64Char _ (by omega)
      have h3 : b64Index (b64Char (b % 16 * 4)) = some (b % 16 * 4) :=
        b64Index_b64Char _ (by omega)
      have hy : b64Char (b % 16 * 4) ≠ '=' := b64Char_ne_pad _ (by omega)
      simp [b64Encode, b64Decode, h1, h2, h3, hy]
      constructor
      · omega
      · omega
  | a :: b :: c :: rest, h => by
      have ha : a < 256 := h a (by simp)
      have hb : b < 256 := h b (by simp)
      have hc : c < 256 := h c (by simp)
      have ih : b64Decode (b64Encode rest) = some rest :=
        b64_roundtrip rest (fun x hx => h x (by simp at hx ⊢; tauto))
      have h1 : b64Index (b64Char (a / 4)) = some (a / 4) :=
        b64Index_b64Char _ (by omega)
      have h2 : b64Index (b64Char (a % 4 * 16 + b / 16)) = some (a % 4 * 16 + b / 16) :=
        b64Index_b64Char _ (by omega)
      have h3 : b64Index (b64Char (b % 16 * 4 + c / 64)) = some (b % 16 * 4 + c / 64) :=
        b64Index_b64Char _ (by omega)
      have h4 : b64Index (b64Char (c % 64)) = some (c % 64) :=
        b64Index_b64Char _ (by omega)
      have hy : b64Char (b % 16 * 4 + c / 64) ≠ '=' := b64Char_ne_pad _ (by omega)
      have hz : b64Char (c % 64) ≠ '=' := b64Char_ne_pad _ (by omega)
      have hA : a / 4 * 4 + (a % 4 * 16 + b / 16) / 16 = a := by omega
      have hB : (a % 4 * 16 + b / 16) % 16 * 16 + (b % 16 * 4 + c / 64) / 4 = b := by omega
      have hC : (b % 16 * 4 + c / 64) % 4 * 64 + c % 64 = c := by omega
      simp [b64Encode, b64Decode, h1, h2, h3, h4, hy, hz, hA, hB, hC, ih]

theorem decodeHeaderVals_map (vs : List String) :
    decodeHeaderVals (vs.map .str) = some vs := by
  induction vs with
  | nil => simp [decodeHeaderVals]
  | cons v vs ih => simp [decodeHeaderVals, ih]

theorem decodeHeaders_map (hs : List (String × List String)) :
    decodeHeaders (hs.map fun kv => (kv.1, .arr (kv.2.map .str))) = some hs := by
  induction hs with
  | nil => simp [decodeHeaders]
  | cons kv hs ih => simp [decodeHeaders, decodeHeaderVals_map, ih]

/-! ## Claim theorems. -/

/-- Claim C1 (amended): whenever cacheable reports a response cacheable, the
expiry it returns (the value ServeHTTP passes to Store.Set) equals
min(candidate expiry, configured maximum expiry); and in standard mode the
response is reported cacheable whenever the cachecontrol call yields no error
and no reasons, irrespective of the sign of the clamped expiry. -/
theorem cacheable_clamp (f : String → String → Bool) (m : cache) (r : Request)
    (status : Int) (cc : CCResult) (now : Int) :
    ((cacheable f m r status cc now).2 = true →
      (cacheable f m r status cc now).1 =
        min (candidateExpiry f m r cc now) (m.cfg.maxExpiry * nsPerSec)) ∧
    (m.cfg.skipCacheControlHeader = false → cc.err = false → cc.reasons = [] →
      (cacheable f m r status cc now).2 = true) := by
  constructor
  · intro hok
    by_cases hskip : m.cfg.skipCacheControlHeader
    · simp only [cacheable, candidateExpiry, hskip] at hok ⊢
      cases hfm : firstMatch f m.uriMap (urlString r) with
      | some ttl => simp [hfm, clampEq]
      | none =>
          by_cases hd : m.cfg.defaultTTL > 0
          · simp [hfm, hd, clampEq]
          · simp [hfm, hd] at hok
    · simp only [cacheable, candidateExpiry, hskip] at hok ⊢
      by_cases herr : cc.err
      · simp [herr] at hok
      · by_cases hre : cc.reasons.isEmpty
        · simp [herr, hre, clampEq]
        · simp [herr, hre] at hok
  · intro h1 h2 h3
    simp [cacheable, h1, h2, h3]

/-- Witness for cacheable_clamp: a concrete standard-mode instance whose
candidate expiry is negative. -/
theorem cacheable_clamp_witness :
    (cacheable noMatch mStd rEx 200 ccPast (5 * nsPerSec)).1 =
      min (candidateExpiry noMatch mStd rEx ccPast (5 * nsPerSec))
        (mStd.cfg.maxExpiry * nsPerSec) :=
  (cacheable_clamp noMatch mStd rEx 200 ccPast (5 * nsPerSec)).1 (by decide)

/-- Counterexample to claim C1 as stated: in standard mode with no reasons
and an expiry instant 5 seconds in the past, the clamped candidate expiry is
-5 seconds, yet cacheable returns true and ServeHTTP writes the entry with
that negative TTL. -/
theorem cacheable_nonpos_counterexample :
    cacheable noMatch mStd rEx 200 ccPast (5 * nsPerSec) = ((-5) * nsPerSec, true) ∧
    (serveHTTP noMatch mStd emptyStore rEx ccPast (5 * nsPerSec) uEx).store.ttlOf
      (cacheKey rEx) = some ((-5) * nsPerSec) := by decide

/-- Claim C2 (amended): the configured allow-list of cacheable methods is
never consulted; the outcome of ServeHTTP, including any store write, is
unchanged under any replacement of allowedHTTPMethods, so a response to a
non-allowed method is stored whenever the policy deems it cacheable. -/
theorem serveHTTP_ignores_allowlist (f : String → String → Bool) (m : cache)
    (store : Store) (r : Request) (cc : CCResult) (now : Int)
    (u : UpstreamResult) (l : List String) :
    serveHTTP f { m with cfg := { m.cfg with allowedHTTPMethods := l } } store r cc now u =
      serveHTTP f m store r cc now u := rfl

/-- Counterexample to claim C2 as stated: a POST request, with POST outside
the configured allow-list, is stored after ServeHTTP because it matches an
override rule. -/
theorem post_stored_despite_allowlist :
    ("POST" ∉ mOvPost.cfg.allowedHTTPMethods) ∧
    ((serveHTTP containsStr mOvPost emptyStore rPost ccPast 0 uPost).store.get
      (cacheKey rPost)).isSome = true := by decide

/-- Claim C3: New rejects the boundary value 1 for both maxExpiry and
cleanup (the checks are maxExpiry <= 1 and cleanup <= 1), although its own
error text and the spec require only that the values be at least 1. -/
theorem New_rejects_boundary :
    New { CreateConfig with path := "/tmp", maxExpiry := 1, cleanup := 300 }
        (fun _ => true) true ("c") =
      .error ("maxExpiry must be greater or equal to 1") ∧
    New { CreateConfig with path := "/tmp", maxExpiry := 300, cleanup := 1 }
        (fun _ => true) true ("c") =
      .error ("cleanup must be greater or equal to 1") := ⟨rfl, rfl⟩

/-- Claim C4: decoding the serialized encoding of a cache entry yields the
entry back unchanged (status, headers with order and multiplicity, body
bytes, expiry instant). -/
theorem decode_encode_cacheData (d : cacheData) (h : ∀ b ∈ d.body, b < 256) :
    decodeCacheData (encodeCacheData d) = some d := by
  obtain ⟨e, s, hs, bo⟩ := d
  simp [encodeCacheData, decodeCacheData, decodeHeaders_map, b64_roundtrip bo h]

/-- Witness for decode_encode_cacheData on a concrete entry. -/
theorem decode_encode_cacheData_witness :
    decodeCacheData (encodeCacheData dW) = some dW :=
  decode_encode_cacheData dW (by decide)

/-- Claim C5: in override mode with no matching rule, a positive default TTL
yields a cacheable result with the default TTL as candidate (clamped by the
maximum), for any upstream status; a default TTL of at most 0 yields not
cacheable and ServeHTTP leaves the store unchanged. -/
theorem override_no_match_default (f : String → String → Bool) (m : cache)
    (r : Request) (status : Int) (cc : CCResult) (now : Int) (store : Store)
    (u : UpstreamResult)
    (hskip : m.cfg.skipCacheControlHeader = true)
    (hnm : firstMatch f m.uriMap (urlString r) = none) :
    (0 < m.cfg.defaultTTL →
      cacheable f m r status cc now =
        (min (m.cfg.defaultTTL * nsPerSec) (m.cfg.maxExpiry * nsPerSec), true)) ∧
    (m.cfg.defaultTTL ≤ 0 →
      cacheable f m r status cc now = (0, false) ∧
      (serveHTTP f m store r cc now u).store = store) := by
  constructor
  · intro hd
    simp [cacheable, hskip, hnm, hd, clampEq]
  · intro hd
    have hnotd : ¬ (m.cfg.defaultTTL > 0) := by omega
    refine ⟨by simp [cacheable, hskip, hnm, hnotd], ?_⟩
    unfold serveHTTP
    cases hget : store.get (cacheKey r) with
    | none => simp [passThrough, cacheable, hskip, hnm, hnotd]
    | some b =>
        cases hdec : b.bind decodeCacheData with
        | some data => simp [hdec]
        | none => simp [hdec, passThrough, cacheable, hskip, hnm, hnotd]

/-- Witness for override_no_match_default: default TTL 7, maximum 300, no
rules. -/
theorem override_no_match_default_witness :
    cacheable noMatch mOvDefault rEx 200 ccPast 0 =
      (min (mOvDefault.cfg.defaultTTL * nsPerSec)
        (mOvDefault.cfg.maxExpiry * nsPerSec), true) :=
  (override_no_match_default noMatch mOvDefault rEx 200 ccPast 0 emptyStore uEx
    rfl rfl).1 (by decide)

/-- Claim C6: when the upstream handler writes body bytes without calling
WriteHeader, the capture wrapper records status 0 (the Go zero value), not
200, and that 0 is what gets stored in the cache entry. -/
theorem captured_status_zero_not_200 :
    capturedStatus uNoWH = 0 ∧
    (serveHTTP containsStr mOvDef30 emptyStore rEx ccPast 0 uNoWH).store.get
        (cacheKey rEx) =
      some (some (encodeCacheData dZero)) := ⟨rfl, rfl⟩

/-- Claim C7 (amended): rule matching is evaluated against the request's full
URL string (path plus query), so the policy outcome is invariant under any
change of request attributes that preserves the URL string. -/
theorem rule_match_uses_urlString (f : String → String → Bool) (m : cache)
    (r1 r2 : Request) (status : Int) (cc : CCResult) (now : Int)
    (h : urlString r1 = urlString r2) :
    cacheable f m r1 status cc now = cacheable f m r2 status cc now := by
  unfold cacheable
  rw [h]

/-- Witness for rule_match_uses_urlString: two requests with different
methods and hosts but the same URL string. -/
theorem rule_match_uses_urlString_witness :
    cacheable containsStr mQ rQ1 200 ccPast 0 = cacheable containsStr mQ rQ1b 200 ccPast 0 :=
  rule_match_uses_urlString containsStr mQ rQ1 rQ1b 200 ccPast 0 rfl

/-- Counterexample to claim C7 as stated: two requests with the same path but
different query strings match differently against the rule with pattern x=1,
so matching does not depend on the path alone. -/
theorem query_changes_rule_match :
    rQ1.path = rQ2.path ∧
    (cacheable containsStr mQ rQ1 200 ccPast 0).2 = true ∧
    (cacheable containsStr mQ rQ2 200 ccPast 0).2 = false := by decide

/-- Claim C8: when the stored bytes for the request's key fail to decode,
ServeHTTP falls through to the upstream handler and delivers its response
unchanged, surfacing no error to the client. -/
theorem decode_failure_falls_through (f : String → String → Bool) (m : cache)
    (store : Store) (r : Request) (cc : CCResult) (now : Int)
    (u : UpstreamResult) (b : Blob)
    (hget : store.get (cacheKey r) = some b)
    (hdec : b.bind decodeCacheData = none) :
    (serveHTTP f m store r cc now u).upstreamInvoked = true ∧
    (serveHTTP f m store r cc now u).servedFromCache = false ∧
    (serveHTTP f m store r cc now u).clientStatus = clientStatusOf u ∧
    (serveHTTP f m store r cc now u).clientBody = u.body := by
  simp only [serveHTTP, hget, hdec]
  exact passThrough_fields f m cacheErrorStatus store r cc now u

/-- Witness for decode_failure_falls_through: a store holding a malformed
document under the request's key. -/
theorem decode_failure_falls_through_witness :
    (serveHTTP containsStr mStd
        (Store.set emptyStore (cacheKey rEx) (some (Json.num 0)) 5) rEx ccPast 0
        uEx).upstreamInvoked = true ∧
    (serveHTTP containsStr mStd
        (Store.set emptyStore (cacheKey rEx) (some (Json.num 0)) 5) rEx ccPast 0
        uEx).servedFromCache = false ∧
    (serveHTTP containsStr mStd
        (Store.set emptyStore (cacheKey rEx) (some (Json.num 0)) 5) rEx ccPast 0
        uEx).clientStatus = clientStatusOf uEx ∧
    (serveHTTP containsStr mStd
        (Store.set emptyStore (cacheKey rEx) (some (Json.num 0)) 5) rEx ccPast 0
        uEx).clientBody = uEx.body :=
  decode_failure_falls_through containsStr mStd _ rEx ccPast 0 uEx
    (some (Json.num 0)) rfl rfl

/-- Claim C9: the cache key is the plain concatenation method + host + path,
so two requests with different (method, host, path) triples share a key, and
the entry stored for one is replayed for the other. -/
theorem cacheKey_not_injective :
    cacheKey rK1 = cacheKey rK2 ∧
    ((rK1.method, rK1.host, rK1.path) ≠ (rK2.method, rK2.host, rK2.path)) ∧
    (serveHTTP containsStr mStd
      (Store.set emptyStore (cacheKey rK1) (marshal dK) 5) rK2 ccPast 0
      uEx).servedFromCache = true := by decide

/-- Claim C10: when the policy deems the response cacheable but marshalling
the snapshot fails, ServeHTTP still writes the marshaller's (empty) output to
the store under the request's key, with the decided TTL. -/
theorem set_called_despite_marshal_failure (f : String → String → Bool)
    (m : cache) (store : Store) (r : Request) (cc : CCResult) (now : Int)
    (u : UpstreamResult)
    (hmiss : store.get (cacheKey r) = none)
    (hok : (cacheable f m r (capturedStatus u) cc now).2 = true)
    (hmar : marshal { expiresAt := now + (cacheable f m r (capturedStatus u) cc now).1,
                      status := capturedStatus u, headers := u.headers, body := u.body } = none) :
    (serveHTTP f m store r cc now u).store.get (cacheKey r) = some none ∧
    (serveHTTP f m store r cc now u).store.ttlOf (cacheKey r) =
      some (cacheable f m r (capturedStatus u) cc now).1 := by
  simp only [serveHTTP, hmiss]
  rw [passThrough_store f m cacheMissStatus store r cc now u hok, hmar]
  constructor
  · simp [Store.get, Store.set]
  · simp [Store.ttlOf, Store.set]

/-- Witness for set_called_despite_marshal_failure: with now at the edge of
the marshallable time range, the snapshot's expiry instant falls outside
year 9999 and json.Marshal fails, yet the entry is written. -/
theorem set_called_despite_marshal_failure_witness :
    (serveHTTP containsStr mOvDef30 emptyStore rEx ccPast marshalTimeMax
      uEx).store.get (cacheKey rEx) = some none ∧
    (serveHTTP containsStr mOvDef30 emptyStore rEx ccPast marshalTimeMax
      uEx).store.ttlOf (cacheKey rEx) =
      some (cacheable containsStr mOvDef30 rEx (capturedStatus uEx) ccPast
        marshalTimeMax).1 :=
  set_called_despite_marshal_failure containsStr mOvDef30 emptyStore rEx ccPast
    marshalTimeMax uEx rfl (by decide) rfl

end CacheByRoute
